import Mathlib

/-!
# Verification of the ESP32-C3 fleet-agent firmware core

Shallow embedding of `ota_manager.c`, `wifi_manager.c` and `main.c`
(directory `backend/firmware_templates/esp32c3_fleet_agent`).  The
module-level C globals become fields of explicit state records; every
external effect (HTTP, flash, NVS, heap, bootloader) is an explicit
environment input, so each C function becomes a pure state transformer.
-/

/-- A firmware byte (`uint8_t`). -/
abbrev Byte := Fin 256

/-- One of the two A/B application slots (`esp_partition_t` for `ota_0` /
`ota_1`). -/
inductive Partition where
  | ota0
  | ota1
deriving DecidableEq, Repr

/-- The `ota_check_result_t` from `ota_manager.h`. -/
inductive ota_check_result_t where
  | update_available
  | no_update
  | check_error
deriving DecidableEq, Repr

/-- The `ota_download_result_t` from `ota_manager.h`.  The source declares
`OTA_DOWNLOAD_TIMEOUT` but never returns it. -/
inductive ota_download_result_t where
  | ok
  | fail
  | timeout
deriving DecidableEq, Repr

/-- The `ota_update_info_t` from `ota_manager.h`: fixed-size `char` buffers are
modelled as strings, `artifact_size` is a `uint32_t`. -/
structure ota_update_info_t where
  version : String
  artifact_hash : String
  download_url : String
  deployment_id : String
  artifact_size : Nat
deriving DecidableEq, Repr

/-- The module state of `ota_manager.c` (its `static` globals) together with
the hardware state they act on (the flash bytes written through the OTA
handle, and the boot loader's next-boot / running slots).

* `s_ota_handle` — the `esp_ota_handle_t` global (0 = null);
* `s_update_part` — the `s_update_part` global;
* `s_download_active` — the `s_download_active` global;
* `writerOpen` — whether the `esp_ota` writer opened by `esp_ota_begin`
  is still open (closed again by `esp_ota_end` / `esp_ota_abort`);
* `hasherLive` — whether the `mbedtls_sha256_context` is initialised and
  not yet freed (`mbedtls_sha256_free` is called only in `verify_hash`);
* `hashed` — the bytes fed to `mbedtls_sha256_update` since `starts`;
* `written` — the bytes written by `esp_ota_write` to the target slot;
* `nextBoot` — the boot loader's next-boot slot (otadata);
* `running` — the currently executing slot. -/
structure OtaMgrState where
  s_ota_handle : Nat
  s_update_part : Option Partition
  s_download_active : Bool
  writerOpen : Bool
  hasherLive : Bool
  hashed : List Byte
  written : List Byte
  nextBoot : Partition
  running : Partition
deriving DecidableEq, Repr

/-- The `esp_ota_abort(s_ota_handle)`: discards the writer.  The C code never
resets the `s_ota_handle` variable itself, so the stale numeric value
stays. -/
def espOtaAbort (s : OtaMgrState) : OtaMgrState :=
  { s with writerOpen := false }

/-- One result of `esp_http_client_read` inside the download loop, paired
with the outcome of the `esp_ota_write` the chunk would trigger:

* `chunk data writeOk` — the read returned `data.length` bytes
  (`read_len > 0` iff `data` is nonempty; a `chunk [] _` is a zero-length
  read and terminates the loop exactly like `eof`); `writeOk` is whether
  the `esp_ota_write` call for this chunk returns `ESP_OK`;
* `eof` — the read returned 0;
* `readError` — the read returned a negative value. -/
inductive ReadStep where
  | chunk (data : List Byte) (writeOk : Bool)
  | eof
  | readError
deriving DecidableEq, Repr

/-- Environment of one `ota_manager_download` call: the outcomes of the
external calls it makes, in program order. -/
structure DownloadEnv where
  /-- The `esp_ota_get_next_update_partition(NULL)` (NULL on failure). -/
  next_update_part : Option Partition
  /-- whether `esp_ota_begin` returns `ESP_OK`. -/
  ota_begin_ok : Bool
  /-- the handle value produced by a successful `esp_ota_begin`. -/
  ota_handle : Nat
  /-- whether `esp_http_client_open` returns `ESP_OK`. -/
  http_open_ok : Bool
  /-- whether `malloc(4096)` succeeds. -/
  malloc_ok : Bool
  /-- successive results of `esp_http_client_read`. -/
  reads : List ReadStep
deriving Repr

/-- The `while ((read_len = esp_http_client_read(...)) > 0)` loop of
`ota_manager_download` (lines 221–241).  A successful iteration writes the
chunk to the partition with `esp_ota_write` and then feeds the same chunk
to `mbedtls_sha256_update`.  A failing `esp_ota_write` aborts the session
and returns `OTA_DOWNLOAD_FAIL`.  A read result `<= 0` — end of stream
*or a read error* — simply ends the loop and the function returns
`OTA_DOWNLOAD_OK`; an exhausted `reads` list is modelled as end of
stream. -/
def downloadLoop : OtaMgrState → List ReadStep → OtaMgrState × ota_download_result_t
  | s, [] => (s, ota_download_result_t.ok)
  | s, ReadStep.eof :: _ => (s, ota_download_result_t.ok)
  | s, ReadStep.readError :: _ => (s, ota_download_result_t.ok)
  | s, ReadStep.chunk data writeOk :: rest =>
    if data.isEmpty then (s, ota_download_result_t.ok)
    else if writeOk then
      downloadLoop
        { s with written := s.written ++ data, hashed := s.hashed ++ data } rest
    else
      ({ espOtaAbort s with s_download_active := false },
        ota_download_result_t.fail)

/-- The `ota_manager_download` (lines 168–249): select the next update
partition, open a sequential writer with `esp_ota_begin`, initialise the
SHA-256 accumulator, set `s_download_active`, open the HTTP stream and run
the chunk loop. -/
def ota_manager_download (s : OtaMgrState) (env : DownloadEnv) :
    OtaMgrState × ota_download_result_t :=
  let s1 := { s with s_update_part := env.next_update_part }
  match env.next_update_part with
  | none => (s1, ota_download_result_t.fail)
  | some _ =>
    if env.ota_begin_ok = false then (s1, ota_download_result_t.fail)
    else
      let s2 := { s1 with
        s_ota_handle := env.ota_handle
        writerOpen := true
        hasherLive := true
        hashed := []
        written := []
        s_download_active := true }
      if env.http_open_ok = false then
        ({ espOtaAbort s2 with s_download_active := false },
          ota_download_result_t.fail)
      else if env.malloc_ok = false then
        ({ espOtaAbort s2 with s_download_active := false },
          ota_download_result_t.fail)
      else downloadLoop s2 env.reads

/-- ASCII `tolower`, as used by `strcasecmp`. -/
def toLowerAscii (c : Char) : Char :=
  if 65 ≤ c.toNat ∧ c.toNat ≤ 90 then Char.ofNat (c.toNat + 32) else c

/-- The `strcasecmp(a, b) == 0`: equality after ASCII lowercasing. -/
def strcaseEq (a b : String) : Bool :=
  a.data.map toLowerAscii == b.data.map toLowerAscii

/-- One hex digit, lowercase, as printed by `sprintf("%02x", ...)`. -/
def hexDigitChar (n : Nat) : Char :=
  if n < 10 then Char.ofNat (48 + n) else Char.ofNat (87 + n)

/-- The `hash_to_hex` (lines 39–45): render a byte string as lowercase hex,
two digits per byte. -/
def hash_to_hex (h : List Byte) : String :=
  String.mk (List.flatten (h.map fun b => [hexDigitChar (b.val / 16), hexDigitChar (b.val % 16)]))

/-- The `ota_manager_verify_hash` (lines 251–270).  The SHA-256 primitive is
external (out of scope per the spec); it is passed in as the function
`sha` from the accumulated byte string to the 32-byte digest.  When no
session is active the function returns `false` without touching anything;
otherwise it finalises and frees the hasher and compares the lowercase hex
rendering case-insensitively against `info.artifact_hash`. -/
def ota_manager_verify_hash (sha : List Byte → List Byte)
    (s : OtaMgrState) (info : ota_update_info_t) : OtaMgrState × Bool :=
  if s.s_download_active = false then (s, false)
  else
    let digest := sha s.hashed
    let s1 := { s with hasherLive := false }
    (s1, strcaseEq (hash_to_hex digest) info.artifact_hash)

/-- Environment of one `ota_manager_apply` call. -/
structure ApplyEnv where
  /-- whether `esp_ota_end` returns `ESP_OK`. -/
  ota_end_ok : Bool
  /-- whether `esp_ota_set_boot_partition` returns `ESP_OK`.  On failure
  the otadata record is not rewritten, so the next-boot slot is
  unchanged. -/
  set_boot_ok : Bool
deriving DecidableEq, Repr

/-- The `ota_manager_apply` (lines 272–293): guard on an active session and a
recorded target, close the writer with `esp_ota_end`, then point the boot
loader at the downloaded slot.  Every exit clears `s_download_active`
except the initial guard. -/
def ota_manager_apply (s : OtaMgrState) (env : ApplyEnv) : OtaMgrState × Bool :=
  match s.s_update_part with
  | none => (s, false)
  | some p =>
    if s.s_download_active = false then (s, false)
    else
      let s1 := { s with writerOpen := false }
      if env.ota_end_ok = false then
        ({ s1 with s_download_active := false }, false)
      else if env.set_boot_ok = false then
        ({ s1 with s_download_active := false }, false)
      else
        ({ s1 with nextBoot := p, s_download_active := false }, true)

/-- The `ota_manager_abort` (lines 295–302): only acts when a session is
active *and* the stored handle is non-null; then it discards the writer
and clears the active flag.  It never frees the SHA-256 context. -/
def ota_manager_abort (s : OtaMgrState) : OtaMgrState :=
  if s.s_download_active = true ∧ s.s_ota_handle ≠ 0 then
    { espOtaAbort s with s_download_active := false }
  else s

/-- The loop of `ota_manager_download` hits no `esp_ota_write` failure
before the stream terminator. -/
def loopWritesOk : List ReadStep → Bool
  | [] => true
  | ReadStep.eof :: _ => true
  | ReadStep.readError :: _ => true
  | ReadStep.chunk data writeOk :: rest =>
    if data.isEmpty then true else writeOk && loopWritesOk rest

/-- The byte sequence the download loop consumes before the stream
terminator, in arrival order (flattening of the chunks, cut short at a
write failure). -/
def goodBytes : List ReadStep → List Byte
  | [] => []
  | ReadStep.eof :: _ => []
  | ReadStep.readError :: _ => []
  | ReadStep.chunk data writeOk :: rest =>
    if data.isEmpty then [] else if writeOk then data ++ goodBytes rest else []

/-- The parse of the check-update response body, as seen through cJSON in
`ota_manager_check_update` (lines 138–160):

* `update_available` — the value of `cJSON_IsTrue` on the
  `update_available` item (`false` also when the item is missing or not
  the JSON literal `true`);
* the four string fields are `some v` exactly when the item is present
  *and* carries a string value (`item->valuestring` non-null); a missing
  item and a non-string item both collapse to `none`. -/
structure CheckJson where
  update_available : Bool
  version : Option String
  artifact_hash : Option String
  download_url : Option String
  deployment_id : Option String
deriving DecidableEq, Repr

/-- Environment of one `ota_manager_check_update` call: the outcomes of
its external calls, in program order.  The function issues the POST twice
(an implementation quirk); the body re-read by the second request is
represented by its cJSON parse. -/
structure CheckEnv where
  /-- whether the first `esp_http_client_perform` returns `ESP_OK`. -/
  perform_ok : Bool
  /-- HTTP status code of the first request. -/
  status : Int
  /-- content length reported by the first request. -/
  content_len : Int
  /-- whether `calloc(1, content_len + 1)` succeeds. -/
  calloc_ok : Bool
  /-- whether `esp_http_client_open` of the second request returns
  `ESP_OK`. -/
  open2_ok : Bool
  /-- The `cJSON_Parse` of the re-read body (`none` = parse failure). -/
  parsed : Option CheckJson
deriving DecidableEq, Repr

/-- The `SERVER_BASE_URL` compiled into the firmware (`OTA_SERVER_BASE_URL`
default). -/
def OTA_SERVER_BASE_URL : String := "https://your-server.com"

/-- The `strncpy(dst, src, n)` into a zeroed fixed buffer: the stored string
is `src` truncated to `n` characters. -/
def strncpyTrunc (src : String) (n : Nat) : String :=
  String.mk (src.data.take n)

/-- The `snprintf(dst, n, "%s%s", base, rel)`: concatenation truncated to
`n - 1` characters (snprintf always NUL-terminates). -/
def snprintfCat (base rel : String) (n : Nat) : String :=
  String.mk ((base.data ++ rel.data).take (n - 1))

/-- The `ota_manager_check_update` (lines 63–165).  The module globals and the
boot state are untouched (the function references none of them), so the
`OtaMgrState` passes through unchanged.  The caller-provided
`ota_update_info_t` is updated field by field, each only when the
corresponding JSON item is present with a string value; `artifact_size`
is never assigned.  Field sizes follow the header: `version` 32,
`artifact_hash` 65, `download_url` 256, `deployment_id` 64. -/
def ota_manager_check_update (s : OtaMgrState) (info : ota_update_info_t)
    (env : CheckEnv) : OtaMgrState × ota_update_info_t × ota_check_result_t :=
  if env.perform_ok = false then (s, info, ota_check_result_t.check_error)
  else if env.status ≠ 200 ∨ env.content_len ≤ 0 ∨ env.content_len > 2048 then
    (s, info, ota_check_result_t.check_error)
  else if env.calloc_ok = false then (s, info, ota_check_result_t.check_error)
  else if env.open2_ok = false then (s, info, ota_check_result_t.check_error)
  else
    match env.parsed with
    | none => (s, info, ota_check_result_t.check_error)
    | some j =>
      if j.update_available = false then (s, info, ota_check_result_t.no_update)
      else
        let info1 := match j.version with
          | some v => { info with version := strncpyTrunc v 31 }
          | none => info
        let info2 := match j.artifact_hash with
          | some v => { info1 with artifact_hash := strncpyTrunc v 64 }
          | none => info1
        let info3 := match j.download_url with
          | some v => { info2 with download_url := snprintfCat OTA_SERVER_BASE_URL v 256 }
          | none => info2
        let info4 := match j.deployment_id with
          | some v => { info3 with deployment_id := strncpyTrunc v 63 }
          | none => info3
        (s, info4, ota_check_result_t.update_available)

/-- The `wifi_connect_result_t` from `wifi_manager.h`. -/
inductive wifi_connect_result_t where
  | ok
  | fail
  | timeout
  | no_credentials
deriving DecidableEq, Repr

/-- The `agent_state_t` from `main.c`. -/
inductive agent_state_t where
  | boot
  | wifi_connect
  | ap_portal
  | idle
  | check_update
  | download
  | verify
  | apply
  | health_check
deriving DecidableEq, Repr

/-- The `HEALTH_CHECK_HEAP_MIN` from `main.c` (32 KiB). -/
def HEALTH_CHECK_HEAP_MIN : Nat := 32 * 1024

/-- The `WIFI_CONNECT_TIMEOUT_MS` from `main.c`. -/
def WIFI_CONNECT_TIMEOUT_MS : Nat := 15 * 1000

/-- The `OTA_CHECK_INTERVAL_MS` from `main.c`. -/
def OTA_CHECK_INTERVAL_MS : Nat := 60 * 1000

/-- The `HEARTBEAT_INTERVAL_MS` from `main.c`. -/
def HEARTBEAT_INTERVAL_MS : Nat := 30 * 1000

/-- FreeRTOS tick period in ms (ESP-IDF default `CONFIG_FREERTOS_HZ` =
100 Hz). -/
def portTICK_PERIOD_MS : Nat := 10

/-- The `pdMS_TO_TICKS` for the above tick rate. -/
def pdMS_TO_TICKS (ms : Nat) : Nat := ms / portTICK_PERIOD_MS

/-- Environment read by `perform_health_check` (lines 73–99). -/
structure HealthEnv where
  /-- The `esp_get_free_heap_size()` (a `uint32_t`). -/
  free_heap : Nat
  /-- The `wifi_manager_is_connected()`. -/
  wifi_connected : Bool
  /-- The `ota_manager_server_reachable()`. -/
  server_reachable : Bool
deriving DecidableEq, Repr

/-- The three probes of `perform_health_check`, for the probe trace. -/
inductive HealthProbe where
  | heap
  | wifi
  | server
deriving DecidableEq, Repr

/-- The `perform_health_check` (lines 73–99): returns the boolean result
together with the trace of probes actually evaluated, in program order.
Probe 1 (heap floor) and probe 2 (Wi-Fi connected) return `false`
immediately on failure; probe 3 (server reachability) is evaluated but
only logged — the function returns `true` regardless of its outcome. -/
def perform_health_check (env : HealthEnv) : Bool × List HealthProbe :=
  if env.free_heap < HEALTH_CHECK_HEAP_MIN then (false, [HealthProbe.heap])
  else if env.wifi_connected = false then
    (false, [HealthProbe.heap, HealthProbe.wifi])
  else (true, [HealthProbe.heap, HealthProbe.wifi, HealthProbe.server])

/-- A call into the boot loader's validity API from `HEALTH_CHECK`. -/
inductive BootloaderCall where
  | markValid
  | markInvalidRollbackAndReboot
deriving DecidableEq, Repr

/-- Environment of one pass through `STATE_HEALTH_CHECK` in `agent_task`
(lines 279–300). -/
structure HealthStateEnv where
  /-- The `wifi_manager_connect(timeout)` as a function of the timeout. -/
  wifi_connect_at : Nat → wifi_connect_result_t
  /-- environment read by `perform_health_check`. -/
  health : HealthEnv

/-- The `STATE_HEALTH_CHECK` (lines 279–300): connect Wi-Fi first (failure →
rollback, which reboots and does not return, modelled as next state
`none`); then run `perform_health_check`; on pass mark the image valid
(commit) and go to `IDLE`, on fail mark it invalid and reboot.  The first
component is the list of boot loader validity calls issued, in order. -/
def healthCheckState (env : HealthStateEnv) :
    List BootloaderCall × Option agent_state_t :=
  if env.wifi_connect_at WIFI_CONNECT_TIMEOUT_MS ≠ wifi_connect_result_t.ok then
    ([BootloaderCall.markInvalidRollbackAndReboot], none)
  else if (perform_health_check env.health).1 = true then
    ([BootloaderCall.markValid], some agent_state_t.idle)
  else
    ([BootloaderCall.markInvalidRollbackAndReboot], none)

/-- The `TickType_t` subtraction: unsigned 32-bit wraparound arithmetic. -/
def tickSub (a b : Nat) : Nat :=
  (a % 2 ^ 32 + (2 ^ 32 - b % 2 ^ 32)) % 2 ^ 32

/-- The two interval timers local to `agent_task`. -/
structure IdleTimers where
  last_heartbeat : Nat
  last_ota_check : Nat
deriving DecidableEq, Repr

/-- Environment of one pass through `STATE_IDLE` (lines 175–200). -/
structure IdleEnv where
  /-- The `xTaskGetTickCount()` at the top of the iteration. -/
  now : Nat
  /-- The `wifi_manager_is_connected()`. -/
  wifi_connected : Bool
deriving DecidableEq, Repr

/-- The `STATE_IDLE` (lines 175–200): first the heartbeat interval is tested
(sending a heartbeat does not leave the state); then the OTA-check
interval — when elapsed the state becomes `CHECK_UPDATE` and the
iteration `break`s *before* the Wi-Fi test; only otherwise is the link
checked, a loss sending the machine to `WIFI_CONNECT`; else the task
sleeps 1 s and stays in `IDLE`.  Returns (next state, updated timers,
whether a heartbeat was sent this iteration). -/
def idleStep (env : IdleEnv) (t : IdleTimers) :
    agent_state_t × IdleTimers × Bool :=
  let hb := tickSub env.now t.last_heartbeat ≥ pdMS_TO_TICKS HEARTBEAT_INTERVAL_MS
  let t1 := if hb then { t with last_heartbeat := env.now } else t
  if tickSub env.now t1.last_ota_check ≥ pdMS_TO_TICKS OTA_CHECK_INTERVAL_MS then
    (agent_state_t.check_update, { t1 with last_ota_check := env.now }, hb)
  else if env.wifi_connected = false then
    (agent_state_t.wifi_connect, t1, hb)
  else
    (agent_state_t.idle, t1, hb)

/-- The `wifi_creds` NVS namespace of `wifi_manager.c`: its two keys and
whether the namespace has ever been created (`nvs_open(..., NVS_READONLY)`
fails while it does not exist). -/
structure NvsWifiNamespace where
  created : Bool
  ssid : Option String
  password : Option String
deriving DecidableEq, Repr

/-- The `nvs_get_str` into a buffer of `buf_len` bytes: fails when the key is
absent or the stored string plus NUL terminator does not fit. -/
def nvsGetStr (v : Option String) (buf_len : Nat) : Option String :=
  match v with
  | none => none
  | some s => if s.length + 1 ≤ buf_len then some s else none

/-- The `nvs_save_credentials` (lines 128–140): set both keys and commit
(creating the namespace on first open). -/
def nvs_save_credentials (st : NvsWifiNamespace) (ssid pass : String) :
    NvsWifiNamespace :=
  { st with created := true, ssid := some ssid, password := some pass }

/-- The `nvs_load_credentials` (lines 115–126), called with a 33-byte ssid
buffer and a 65-byte password buffer: `some (ssid, password)` when both
reads succeed and the ssid is nonempty, else `none` (reported as
no-credentials). -/
def nvs_load_credentials (st : NvsWifiNamespace) : Option (String × String) :=
  if st.created = false then none
  else
    match nvsGetStr st.ssid 33, nvsGetStr st.password 65 with
    | some s, some p => if s.length > 0 then some (s, p) else none
    | _, _ => none

/-- The `wifi_manager_erase_credentials` (lines 376–385): `nvs_erase_all` on
the `wifi_creds` namespace removes every key. -/
def wifi_manager_erase_credentials (st : NvsWifiNamespace) : NvsWifiNamespace :=
  { st with ssid := none, password := none }

/-! ## Helper lemmas -/

/-- Closed form of the download loop: when every `esp_ota_write` before
the stream terminator succeeds, the loop returns `OK` with the consumed
bytes appended to both the partition image and the hash accumulator; a
write failure aborts the session with `FAIL`, again with the two byte
strings extended in lockstep. -/
theorem downloadLoop_eq (reads : List ReadStep) (s : OtaMgrState) :
    downloadLoop s reads =
      if loopWritesOk reads then
        ({ s with written := s.written ++ goodBytes reads,
                  hashed := s.hashed ++ goodBytes reads },
          ota_download_result_t.ok)
      else
        ({ s with written := s.written ++ goodBytes reads,
                  hashed := s.hashed ++ goodBytes reads,
                  writerOpen := false, s_download_active := false },
          ota_download_result_t.fail) := by
  induction reads generalizing s with
  | nil => simp [downloadLoop, loopWritesOk, goodBytes]
  | cons r rest ih =>
    cases r with
    | eof => simp [downloadLoop, loopWritesOk, goodBytes]
    | readError => simp [downloadLoop, loopWritesOk, goodBytes]
    | chunk data writeOk =>
      by_cases hd : data.isEmpty
      · simp [downloadLoop, loopWritesOk, goodBytes, hd]
      · cases writeOk with
        | true =>
          simp [downloadLoop, loopWritesOk, goodBytes, hd, ih, List.append_assoc]
        | false =>
          simp [downloadLoop, loopWritesOk, goodBytes, hd, espOtaAbort]

/-! ## Concrete fixtures -/

/-- A quiescent OTA manager state: no session, no handle, both boot
records on `ota_0`. -/
def initOtaState : OtaMgrState :=
  ⟨0, none, false, false, false, [], [], Partition.ota0, Partition.ota0⟩

/-- A download environment whose stream yields one good chunk and then a
read error (negative `esp_http_client_read` result). -/
def readErrorEnv : DownloadEnv :=
  ⟨some Partition.ota1, true, 7, true, true,
    [ReadStep.chunk [1, 2] true, ReadStep.readError]⟩

/-- A download environment whose first chunk hits an `esp_ota_write`
failure. -/
def writeErrorEnv : DownloadEnv :=
  ⟨some Partition.ota1, true, 7, true, true, [ReadStep.chunk [1] false]⟩

/-! ## C1 -/

/-- C1 counterexample, refuting the claim at two concrete inputs.
First, a *read* error (negative `esp_http_client_read` result) does not
abort the session and does not yield `FAIL` — the loop condition
`read_len > 0` treats it like EOF, so `ota_manager_download` returns `OK`
with the session still active.  Second, on a genuine abort path (an
`esp_ota_write` failure, yielding `FAIL` with the active flag cleared)
the SHA-256 context is *not* freed, contradicting the claimed
"hasher freed": no failure path of the download calls
`mbedtls_sha256_free`. -/
theorem c1_read_error_counterexample :
    ReadStep.readError ∈ readErrorEnv.reads ∧
    (ota_manager_download initOtaState readErrorEnv).2 = ota_download_result_t.ok ∧
    (ota_manager_download initOtaState readErrorEnv).1.s_download_active = true ∧
    ReadStep.chunk [1] false ∈ writeErrorEnv.reads ∧
    (ota_manager_download initOtaState writeErrorEnv).2 = ota_download_result_t.fail ∧
    (ota_manager_download initOtaState writeErrorEnv).1.s_download_active = false ∧
    (ota_manager_download initOtaState writeErrorEnv).1.hasherLive = true := by
  decide

/-- C1 (amended): once a target partition exists and `esp_ota_begin`
succeeds, an HTTP-open failure, an allocation failure, or an
`esp_ota_write` failure aborts the session (writer discarded, active flag
cleared, but the SHA-256 context stays allocated — not freed) and the
result is `FAIL`; whenever the result is `OK` (EOF, *or a read error*,
which ends the loop the same way) the session is still active: writer
open, hasher live. -/
theorem c1_download_error_semantics (s : OtaMgrState) (env : DownloadEnv)
    (hpart : env.next_update_part ≠ none) (hbegin : env.ota_begin_ok = true) :
    ((ota_manager_download s env).2 = ota_download_result_t.ok →
      (ota_manager_download s env).1.s_download_active = true ∧
      (ota_manager_download s env).1.writerOpen = true ∧
      (ota_manager_download s env).1.hasherLive = true) ∧
    ((env.http_open_ok = false ∨ env.malloc_ok = false ∨
        loopWritesOk env.reads = false) →
      (ota_manager_download s env).2 = ota_download_result_t.fail ∧
      (ota_manager_download s env).1.s_download_active = false ∧
      (ota_manager_download s env).1.writerOpen = false ∧
      (ota_manager_download s env).1.hasherLive = true) := by
  obtain ⟨p, hp⟩ := Option.ne_none_iff_exists.mp hpart
  unfold ota_manager_download
  rw [← hp, hbegin]
  simp only [Bool.true_eq_false, if_false]
  cases hopen : env.http_open_ok with
  | false => simp [espOtaAbort]
  | true =>
    cases hmal : env.malloc_ok with
    | false => simp [espOtaAbort]
    | true =>
      simp only [Bool.true_eq_false, if_false, downloadLoop_eq]
      cases hw : loopWritesOk env.reads with
      | false => simp
      | true => simp

/-- C1 witness: an HTTP-open failure yields `FAIL` with the session
aborted and the SHA-256 context still allocated. -/
theorem c1_download_error_semantics_witness :
    (ota_manager_download initOtaState
        ⟨some Partition.ota1, true, 7, false, true, []⟩).2 =
      ota_download_result_t.fail ∧
    (ota_manager_download initOtaState
        ⟨some Partition.ota1, true, 7, false, true, []⟩).1.s_download_active = false ∧
    (ota_manager_download initOtaState
        ⟨some Partition.ota1, true, 7, false, true, []⟩).1.hasherLive = true :=
  ⟨((c1_download_error_semantics initOtaState _ (by decide) rfl).2 (Or.inl rfl)).1,
    ((c1_download_error_semantics initOtaState _ (by decide) rfl).2 (Or.inl rfl)).2.1,
    ((c1_download_error_semantics initOtaState _ (by decide) rfl).2 (Or.inl rfl)).2.2.2⟩

/-! ## C7 -/

/-- C7: on a successful download the byte string fed to the SHA-256
accumulator is exactly the byte string written to the target partition,
and both are exactly the chunks consumed from the HTTP stream flattened
in arrival order — no byte skipped, duplicated, or reordered.  (Within
each loop iteration the partition write precedes the hasher update: a
chunk whose `esp_ota_write` fails is never hashed.) -/
theorem c7_hash_over_written_bytes (s : OtaMgrState) (env : DownloadEnv)
    (h : (ota_manager_download s env).2 = ota_download_result_t.ok) :
    (ota_manager_download s env).1.hashed = (ota_manager_download s env).1.written ∧
    (ota_manager_download s env).1.written = goodBytes env.reads := by
  cases hp : env.next_update_part with
  | none => simp [ota_manager_download, hp] at h
  | some p =>
    cases hbegin : env.ota_begin_ok with
    | false => simp [ota_manager_download, hp, hbegin] at h
    | true =>
      cases hopen : env.http_open_ok with
      | false => simp [ota_manager_download, hp, hbegin, hopen] at h
      | true =>
        cases hmal : env.malloc_ok with
        | false => simp [ota_manager_download, hp, hbegin, hopen, hmal] at h
        | true =>
          cases hw : loopWritesOk env.reads with
          | false =>
            simp [ota_manager_download, hp, hbegin, hopen, hmal,
              downloadLoop_eq, hw] at h
          | true =>
            simp [ota_manager_download, hp, hbegin, hopen, hmal,
              downloadLoop_eq, hw]

/-- C7 witness: a two-chunk stream ending in EOF. -/
theorem c7_hash_over_written_bytes_witness :
    (ota_manager_download initOtaState
        ⟨some Partition.ota1, true, 7, true, true,
          [ReadStep.chunk [1, 2] true, ReadStep.chunk [3] true, ReadStep.eof]⟩).1.hashed =
      (ota_manager_download initOtaState
        ⟨some Partition.ota1, true, 7, true, true,
          [ReadStep.chunk [1, 2] true, ReadStep.chunk [3] true, ReadStep.eof]⟩).1.written ∧
    (ota_manager_download initOtaState
        ⟨some Partition.ota1, true, 7, true, true,
          [ReadStep.chunk [1, 2] true, ReadStep.chunk [3] true, ReadStep.eof]⟩).1.written =
      goodBytes [ReadStep.chunk [1, 2] true, ReadStep.chunk [3] true, ReadStep.eof] :=
  c7_hash_over_written_bytes initOtaState _ (by decide)

/-! ## Frame helper lemmas -/

/-- The `ota_manager_check_update` never touches the OTA module globals or
the boot records: the state passes through unchanged. -/
theorem check_update_state_frame (s : OtaMgrState) (info : ota_update_info_t)
    (env : CheckEnv) : (ota_manager_check_update s info env).1 = s := by
  unfold ota_manager_check_update
  repeat' split
  all_goals rfl

/-- The `ota_manager_download` never touches the boot loader records. -/
theorem download_boot_frame (s : OtaMgrState) (env : DownloadEnv) :
    (ota_manager_download s env).1.nextBoot = s.nextBoot ∧
    (ota_manager_download s env).1.running = s.running := by
  cases hp : env.next_update_part with
  | none => simp [ota_manager_download, hp]
  | some p =>
    cases hbegin : env.ota_begin_ok with
    | false => simp [ota_manager_download, hp, hbegin]
    | true =>
      cases hopen : env.http_open_ok with
      | false => simp [ota_manager_download, hp, hbegin, hopen, espOtaAbort]
      | true =>
        cases hmal : env.malloc_ok with
        | false => simp [ota_manager_download, hp, hbegin, hopen, hmal, espOtaAbort]
        | true =>
          cases hw : loopWritesOk env.reads <;>
            simp [ota_manager_download, hp, hbegin, hopen, hmal, downloadLoop_eq, hw]

/-- An empty `ota_update_info_t`, as produced by the `memset` in
`STATE_CHECK_UPDATE`. -/
def emptyInfo : ota_update_info_t := ⟨"", "", "", "", 0⟩

/-- A check environment whose response fails to parse. -/
def parseFailCheckEnv : CheckEnv := ⟨true, 200, 10, true, true, none⟩

/-! ## C2 -/

/-- C2: `apply` is the only operation that changes the next-boot
partition.  Starting from a state whose next-boot slot equals the running
slot, `check_update`, `download` and `verify_hash` leave the two equal
under every environment and result, and so does `apply` whenever it
returns `false`. -/
theorem c2_next_boot_equals_running (s : OtaMgrState) (info : ota_update_info_t)
    (cenv : CheckEnv) (denv : DownloadEnv) (aenv : ApplyEnv)
    (sha : List Byte → List Byte) (h : s.nextBoot = s.running) :
    ((ota_manager_check_update s info cenv).1.nextBoot =
      (ota_manager_check_update s info cenv).1.running) ∧
    ((ota_manager_download s denv).1.nextBoot =
      (ota_manager_download s denv).1.running) ∧
    ((ota_manager_verify_hash sha s info).1.nextBoot =
      (ota_manager_verify_hash sha s info).1.running) ∧
    ((ota_manager_apply s aenv).2 = false →
      (ota_manager_apply s aenv).1.nextBoot = (ota_manager_apply s aenv).1.running) := by
  refine ⟨?_, ?_, ?_, ?_⟩
  · rw [check_update_state_frame]; exact h
  · obtain ⟨h1, h2⟩ := download_boot_frame s denv
    rw [h1, h2]; exact h
  · unfold ota_manager_verify_hash
    split <;> simpa using h
  · intro hf
    cases hsp : s.s_update_part with
    | none => simpa [ota_manager_apply, hsp] using h
    | some p =>
      cases hact : s.s_download_active with
      | false => simpa [ota_manager_apply, hsp, hact] using h
      | true =>
        cases he : aenv.ota_end_ok with
        | false => simpa [ota_manager_apply, hsp, hact, he] using h
        | true =>
          cases hb : aenv.set_boot_ok with
          | false => simpa [ota_manager_apply, hsp, hact, he, hb] using h
          | true => simp [ota_manager_apply, hsp, hact, he, hb] at hf

/-- C2 witness: a failed download from a quiescent state leaves the
next-boot slot equal to the running slot. -/
theorem c2_next_boot_equals_running_witness :
    (ota_manager_download initOtaState readErrorEnv).1.nextBoot =
      (ota_manager_download initOtaState readErrorEnv).1.running :=
  (c2_next_boot_equals_running initOtaState emptyInfo parseFailCheckEnv
    readErrorEnv ⟨true, true⟩ (fun _ => []) rfl).2.1

/-! ## C6 -/

/-- Hex digits rendered by `hash_to_hex` are fixed points of ASCII
`tolower`. -/
theorem toLowerAscii_hexDigitChar (n : Nat) (h : n < 16) :
    toLowerAscii (hexDigitChar n) = hexDigitChar n := by
  interval_cases n <;> decide

/-- The output of `hash_to_hex` is already lowercase. -/
theorem hash_to_hex_lower (h : List Byte) :
    (hash_to_hex h).data.map toLowerAscii = (hash_to_hex h).data := by
  induction h with
  | nil => rfl
  | cons b t ih =>
    have h1 : b.val / 16 < 16 := by
      have := b.isLt
      omega
    have h2 : b.val % 16 < 16 := Nat.mod_lt _ (by norm_num)
    simpa [hash_to_hex, toLowerAscii_hexDigitChar _ h1,
      toLowerAscii_hexDigitChar _ h2] using ih

/-- C6: `verify_hash` returns `false` whenever no session is active;
otherwise it consumes the hasher (freeing the SHA-256 context, touching
nothing else) and returns `true` exactly when the lowercase-hex rendering
of the finalised digest equals `info.artifact_hash` up to ASCII case —
an uppercase expected hash against the lowercase computed hex still
matches. -/
theorem c6_verify_hash_semantics (sha : List Byte → List Byte)
    (s : OtaMgrState) (info : ota_update_info_t) :
    (s.s_download_active = false → ota_manager_verify_hash sha s info = (s, false)) ∧
    (s.s_download_active = true →
      (ota_manager_verify_hash sha s info).1 = { s with hasherLive := false }) ∧
    (s.s_download_active = true →
      ((ota_manager_verify_hash sha s info).2 = true ↔
        info.artifact_hash.data.map toLowerAscii = (hash_to_hex (sha s.hashed)).data)) := by
  refine ⟨?_, ?_, ?_⟩
  · intro h; simp [ota_manager_verify_hash, h]
  · intro h; simp [ota_manager_verify_hash, h]
  · intro h
    unfold ota_manager_verify_hash
    rw [if_neg (by simp [h])]
    show strcaseEq (hash_to_hex (sha s.hashed)) info.artifact_hash = true ↔ _
    simp only [strcaseEq, beq_iff_eq, hash_to_hex_lower]
    exact eq_comm

/-- An OTA manager state mid-session (as left by a successful download
of an empty stream). -/
def activeOtaState : OtaMgrState :=
  ⟨7, some Partition.ota1, true, true, true, [], [], Partition.ota0, Partition.ota0⟩

/-- C6 witness: expected hash `"ABAB…AB"` (uppercase) against computed
digest `0xAB` × 32 (rendered `"abab…ab"`) verifies successfully. -/
theorem c6_verify_hash_semantics_witness :
    (ota_manager_verify_hash (fun _ => List.replicate 32 (171 : Byte)) activeOtaState
      ⟨"1.0.1", "ABABABABABABABABABABABABABABABABABABABABABABABABABABABABABABABAB",
        "", "", 0⟩).2 = true :=
  ((c6_verify_hash_semantics _ _ _).2.2 rfl).mpr (by decide)

/-! ## C10 -/

/-- C10: `verify_hash` never changes the session-active flag (a hash
mismatch leaves the session active), and `abort` is the identity whenever
no session is active. -/
theorem c10_session_flag_frame (sha : List Byte → List Byte)
    (s t : OtaMgrState) (info : ota_update_info_t)
    (h : t.s_download_active = false) :
    (ota_manager_verify_hash sha s info).1.s_download_active = s.s_download_active ∧
    ota_manager_abort t = t := by
  constructor
  · unfold ota_manager_verify_hash
    split <;> rfl
  · simp [ota_manager_abort, h]

/-- C10 witness: `verify_hash` on an active session keeps it active, and
`abort` on a quiescent state is a no-op. -/
theorem c10_session_flag_frame_witness :
    (ota_manager_verify_hash (fun _ => []) activeOtaState emptyInfo).1.s_download_active =
      activeOtaState.s_download_active ∧
    ota_manager_abort initOtaState = initOtaState :=
  c10_session_flag_frame (fun _ => []) activeOtaState initOtaState emptyInfo rfl

/-! ## C3 -/

/-- C3: `perform_health_check` evaluates its probes in the fixed order
heap → Wi-Fi → server (the probe trace is always a nonempty prefix of
that sequence, and all three run exactly when the first two pass).  A
heap below the 32 KiB floor or a lost Wi-Fi association makes
`HEALTH_CHECK` roll back and reboot; once the Wi-Fi connect and the first
two probes pass, the state commits — the server-reachability probe never
causes a rollback. -/
theorem c3_health_check_probes (env : HealthStateEnv) :
    List.isPrefixOf (perform_health_check env.health).2
      [HealthProbe.heap, HealthProbe.wifi, HealthProbe.server] = true ∧
    (perform_health_check env.health).2 ≠ [] ∧
    (HEALTH_CHECK_HEAP_MIN ≤ env.health.free_heap → env.health.wifi_connected = true →
      (perform_health_check env.health).2 =
        [HealthProbe.heap, HealthProbe.wifi, HealthProbe.server]) ∧
    (env.health.free_heap < HEALTH_CHECK_HEAP_MIN →
      (healthCheckState env).1 = [BootloaderCall.markInvalidRollbackAndReboot]) ∧
    (env.health.wifi_connected = false →
      (healthCheckState env).1 = [BootloaderCall.markInvalidRollbackAndReboot]) ∧
    (env.wifi_connect_at WIFI_CONNECT_TIMEOUT_MS = wifi_connect_result_t.ok →
      HEALTH_CHECK_HEAP_MIN ≤ env.health.free_heap →
      env.health.wifi_connected = true →
      (healthCheckState env).1 = [BootloaderCall.markValid]) := by
  by_cases hheap : env.health.free_heap < HEALTH_CHECK_HEAP_MIN
  · refine ⟨?_, ?_, ?_, ?_, ?_, ?_⟩ <;>
      simp [perform_health_check, healthCheckState, hheap]
  · cases hconn : env.health.wifi_connected with
    | false =>
      refine ⟨?_, ?_, ?_, ?_, ?_, ?_⟩ <;>
        simp [perform_health_check, healthCheckState, hheap, hconn]
    | true =>
      by_cases hw : env.wifi_connect_at WIFI_CONNECT_TIMEOUT_MS = wifi_connect_result_t.ok
      · refine ⟨?_, ?_, ?_, ?_, ?_, ?_⟩ <;>
          simp [perform_health_check, healthCheckState, hheap, hconn, hw]
      · refine ⟨?_, ?_, ?_, ?_, ?_, ?_⟩ <;>
          simp [perform_health_check, healthCheckState, hheap, hconn, hw]

/-- C3 witness: heap above the floor, Wi-Fi up, server unreachable —
the health-check state still commits. -/
theorem c3_health_check_probes_witness :
    (healthCheckState ⟨fun _ => wifi_connect_result_t.ok, ⟨40960, true, false⟩⟩).1 =
      [BootloaderCall.markValid] :=
  (c3_health_check_probes _).2.2.2.2.2 rfl (by decide) rfl

/-! ## C4 -/

/-- C4: every pass through `HEALTH_CHECK` issues exactly one boot loader
validity call — either the single commit (`mark_app_valid`) or the single
rollback-and-reboot (`mark_app_invalid`); never both and never
neither. -/
theorem c4_health_check_commit_xor_rollback (env : HealthStateEnv) :
    (healthCheckState env).1 = [BootloaderCall.markValid] ∨
    (healthCheckState env).1 = [BootloaderCall.markInvalidRollbackAndReboot] := by
  unfold healthCheckState
  split
  · right; rfl
  · split
    · left; rfl
    · right; rfl

/-! ## C5 -/

/-- C5 counterexample: with the OTA-check interval elapsed *and* the
Wi-Fi link down in the same `IDLE` iteration, the supervisor moves to
`CHECK_UPDATE`, not to `WIFI_CONNECT` — the update check is tested first
and `break`s before the link test. -/
theorem c5_idle_precedence_counterexample :
    pdMS_TO_TICKS OTA_CHECK_INTERVAL_MS ≤ tickSub 6000 0 ∧
    (⟨6000, false⟩ : IdleEnv).wifi_connected = false ∧
    (idleStep ⟨6000, false⟩ ⟨6000, 0⟩).1 = agent_state_t.check_update ∧
    (idleStep ⟨6000, false⟩ ⟨6000, 0⟩).1 ≠ agent_state_t.wifi_connect := by
  decide

/-- C5 (amended): in `IDLE` a due OTA check takes precedence — whenever
the OTA-check interval has elapsed the next state is `CHECK_UPDATE`,
whatever the link state; link loss sends the supervisor to
`WIFI_CONNECT` only in iterations where no OTA check is due. -/
theorem c5_idle_ota_check_precedence (env : IdleEnv) (t : IdleTimers) :
    (pdMS_TO_TICKS OTA_CHECK_INTERVAL_MS ≤ tickSub env.now t.last_ota_check →
      (idleStep env t).1 = agent_state_t.check_update) ∧
    (tickSub env.now t.last_ota_check < pdMS_TO_TICKS OTA_CHECK_INTERVAL_MS →
      env.wifi_connected = false →
      (idleStep env t).1 = agent_state_t.wifi_connect) := by
  constructor
  · intro hdue
    by_cases hhb : tickSub env.now t.last_heartbeat ≥ pdMS_TO_TICKS HEARTBEAT_INTERVAL_MS <;>
      simp [idleStep, hhb, hdue]
  · intro hnot hconn
    by_cases hhb : tickSub env.now t.last_heartbeat ≥ pdMS_TO_TICKS HEARTBEAT_INTERVAL_MS <;>
      simp [idleStep, hhb, hconn, Nat.not_le.mpr hnot]

/-- C5 witness: the amended precedence at a concrete iteration. -/
theorem c5_idle_ota_check_precedence_witness :
    (idleStep ⟨6000, false⟩ ⟨6000, 0⟩).1 = agent_state_t.check_update :=
  (c5_idle_ota_check_precedence ⟨6000, false⟩ ⟨6000, 0⟩).1 (by decide)

/-! ## C8 -/

/-- C8 counterexample: the claim quantifies over every ssid of length at
most 32, including the empty one — but `nvs_load_credentials` demands
`strlen(ssid) > 0`, so saving `("", "secret")` and loading yields
*absent*, not `("", "secret")`. -/
theorem c8_empty_ssid_counterexample :
    ("" : String).length ≤ 32 ∧ ("secret" : String).length ≤ 64 ∧
    nvs_load_credentials (nvs_save_credentials ⟨false, none, none⟩ ("") ("secret")) = none := by
  decide

/-- C8 (amended): for every *nonempty* ssid of length at most 32 and
every password of length at most 64 (possibly empty), save-then-load
yields exactly `(ssid, password)`; and after `erase_credentials` a load
reports the credentials absent. -/
theorem c8_credentials_roundtrip (st st2 : NvsWifiNamespace) (ssid pw : String)
    (h1 : 0 < ssid.length) (h2 : ssid.length ≤ 32) (h3 : pw.length ≤ 64) :
    nvs_load_credentials (nvs_save_credentials st ssid pw) = some (ssid, pw) ∧
    nvs_load_credentials (wifi_manager_erase_credentials st2) = none := by
  constructor
  · simp only [nvs_load_credentials, nvs_save_credentials, nvsGetStr]
    rw [if_neg (by simp)]
    rw [if_pos (by omega), if_pos (by omega)]
    simp [h1]
  · cases hc : st2.created <;>
      simp [nvs_load_credentials, wifi_manager_erase_credentials, nvsGetStr, hc]

/-- C8 witness: the round trip at `("home", "abc")` from a fresh store. -/
theorem c8_credentials_roundtrip_witness :
    nvs_load_credentials (nvs_save_credentials ⟨false, none, none⟩ ("home") ("abc")) =
      some ("home", "abc") ∧
    nvs_load_credentials (wifi_manager_erase_credentials ⟨true, some ("home"), some ("abc")⟩) =
      none :=
  c8_credentials_roundtrip ⟨false, none, none⟩ ⟨true, some ("home"), some ("abc")⟩
    ("home") ("abc") (by decide) (by decide) (by decide)

/-! ## C9 -/

/-- C9: once the check response parses with `update_available` true, the
result is `AVAILABLE` no matter which of the four string fields are
missing or non-string; each absent field leaves the corresponding
`ota_update_info_t` field of the caller untouched, and `artifact_size`
is never written at all. -/
theorem c9_check_update_frame (s : OtaMgrState) (info : ota_update_info_t)
    (env : CheckEnv) (j : CheckJson)
    (hperf : env.perform_ok = true) (hstat : env.status = 200)
    (hlen1 : 0 < env.content_len) (hlen2 : env.content_len ≤ 2048)
    (hcal : env.calloc_ok = true) (hopen : env.open2_ok = true)
    (hparse : env.parsed = some j) (hav : j.update_available = true) :
    (ota_manager_check_update s info env).2.2 = ota_check_result_t.update_available ∧
    (j.version = none →
      (ota_manager_check_update s info env).2.1.version = info.version) ∧
    (j.artifact_hash = none →
      (ota_manager_check_update s info env).2.1.artifact_hash = info.artifact_hash) ∧
    (j.download_url = none →
      (ota_manager_check_update s info env).2.1.download_url = info.download_url) ∧
    (j.deployment_id = none →
      (ota_manager_check_update s info env).2.1.deployment_id = info.deployment_id) ∧
    (ota_manager_check_update s info env).2.1.artifact_size = info.artifact_size := by
  have hcond : ¬(env.status ≠ 200 ∨ env.content_len ≤ 0 ∨ env.content_len > 2048) := by
    push_neg
    exact ⟨by omega, by omega, by omega⟩
  unfold ota_manager_check_update
  rw [hperf, if_neg (by simp), if_neg hcond, hcal, if_neg (by simp), hopen,
    if_neg (by simp), hparse]
  cases hv : j.version <;> cases hh : j.artifact_hash <;>
    cases hd : j.download_url <;> cases hdid : j.deployment_id <;>
    simp [hav, hv, hh, hd, hdid]

/-- C9 witness: a parsed response carrying only `update_available: true`
still yields `AVAILABLE` and modifies nothing in the caller record. -/
theorem c9_check_update_frame_witness :
    (ota_manager_check_update initOtaState emptyInfo
        ⟨true, 200, 10, true, true, some ⟨true, none, none, none, none⟩⟩).2.2 =
      ota_check_result_t.update_available ∧
    (ota_manager_check_update initOtaState emptyInfo
        ⟨true, 200, 10, true, true, some ⟨true, none, none, none, none⟩⟩).2.1.artifact_size =
      emptyInfo.artifact_size :=
  have h := c9_check_update_frame initOtaState emptyInfo
    ⟨true, 200, 10, true, true, some ⟨true, none, none, none, none⟩⟩
    ⟨true, none, none, none, none⟩ rfl rfl (by decide) (by decide) rfl rfl rfl rfl
  ⟨h.1, h.2.2.2.2.2⟩
